import Mathlib

/-!
Verification of the VibeChess motorized-chessboard firmware (repository
andrewphung1/chess-board).  The sketches are shallowly embedded: the
closed-loop `moveToTarget` servo loops are modelled as functions over a
finite trace of polls (abort flag, encoder count, elapsed milliseconds),
the BLE `onWrite` dispatchers as pure state-transition functions, the
`CMD key=value` parsers as functions on character lists, and the
single-precision float arithmetic of the square-to-counts calibration as
exact IEEE-754 binary32 rounding over the rationals.

Namespaces mirror the source files:
  * `V11`   — `v1.1/v1.1.ino` (fault/homing variant, single axis)
  * `V1`    — `v1/v1.ino` (single axis, no fault latch)
  * `Part0` — the staged-FSM BLE receiver in `unnamed/part_000`
  * `MagMan`— the first (manual) sketch in `magnetpt2_copy_20251202162659`
  * `MagXY` — the second (BLE XY) sketch in the same file
-/

/-! ## Exact IEEE-754 binary32 arithmetic over integer fractions

The sketches compute square targets with C `float` arithmetic on an
ESP32 (single-precision FPU, every operation rounded to binary32).  We
model a binary32 value as the exact rational it denotes — represented as
an explicit integer fraction so every computation is plain `Int`
arithmetic — and rounding as round-to-nearest, ties-to-even with a
24-bit significand.  All values in these sketches are normal and far
from overflow/underflow, so the normal-range formula suffices.  Every
`Frac` built below has a positive denominator, which the order relations
assume. -/

structure Frac where
  num : Int
  den : Int
deriving DecidableEq

def fOfInt (n : Int) : Frac := ⟨n, 1⟩

def fNeg (a : Frac) : Frac := ⟨-a.num, a.den⟩

def fAdd (a b : Frac) : Frac := ⟨a.num * b.den + b.num * a.den, a.den * b.den⟩

def fSub (a b : Frac) : Frac := fAdd a (fNeg b)

def fMul (a b : Frac) : Frac := ⟨a.num * b.num, a.den * b.den⟩

def fAbs (a : Frac) : Frac := ⟨(a.num.natAbs : Int), a.den⟩

/-- Fraction order, valid for positive denominators. -/
def fLe (a b : Frac) : Prop := a.num * b.den ≤ b.num * a.den

def fLt (a b : Frac) : Prop := a.num * b.den < b.num * a.den

instance (a b : Frac) : Decidable (fLe a b) := by unfold fLe; infer_instance

instance (a b : Frac) : Decidable (fLt a b) := by unfold fLt; infer_instance

/-- Floor of a fraction with positive denominator. -/
def fFloor (a : Frac) : Int := Int.fdiv a.num a.den

def pow2 (e : Int) : Frac :=
  if 0 ≤ e then ⟨2 ^ e.toNat, 1⟩ else ⟨1, 2 ^ (-e).toNat⟩

/-- Largest `e` with `2^e ≤ x`, searched in `[-64, 64]`; total on that range. -/
def exp2floor (x : Frac) : Int :=
  (List.range 129).foldl
    (fun acc i => if fLe (pow2 ((i : Int) - 64)) x then (i : Int) - 64 else acc) (-64)

/-- Round a fraction to the nearest integer, ties to even. -/
def rne (q : Frac) : Int :=
  let n := fFloor q
  let r := fSub q (fOfInt n)
  if fLt r ⟨1, 2⟩ then n
  else if fLt ⟨1, 2⟩ r then n + 1
  else if n % 2 = 0 then n else n + 1

/-- Round a positive fraction to the nearest binary32 value (normal range). -/
def fl32pos (x : Frac) : Frac :=
  let e := exp2floor x
  fMul (fOfInt (rne (fMul x (pow2 (23 - e))))) (pow2 (e - 23))

/-- Round a fraction to the nearest binary32 value (normal range). -/
def fl32 (x : Frac) : Frac :=
  if x.num = 0 then fOfInt 0
  else if 0 < x.num then fl32pos x
  else fNeg (fl32pos (fNeg x))

/-- C cast of a float value to `long`: truncation toward zero. -/
def ratTrunc (q : Frac) : Int :=
  if 0 ≤ q.num then fFloor q else -fFloor (fNeg q)

namespace V11

/-! Physics constants of `v1.1/v1.1.ino` (C `float` literals, hence the
binary32 rounding of the decimal values). -/

def COUNTS_PER_INCH : Frac := fl32 ⟨18003, 25⟩
def DIST_TO_SQ1 : Frac := fl32 ⟨193, 200⟩
def SQUARE_PITCH : Frac := fl32 ⟨3, 2⟩

/-- Model of `calculateSquareTarget` in `v1.1.ino` (identical in `v1.ino`): clamp
the square index to 1..8, evaluate the linear calibration in single
precision, cast the result to `long`. -/
def calculateSquareTarget (squareNumber : Int) : Int :=
  let n : Int := if squareNumber < 1 then 1 else if 8 < squareNumber then 8 else squareNumber
  let inches : Frac := fl32 (fAdd DIST_TO_SQ1 (fl32 (fMul (fOfInt (n - 1)) SQUARE_PITCH)))
  ratTrunc (fl32 (fMul inches COUNTS_PER_INCH))

end V11

namespace V1

def COUNTS_PER_INCH : Frac := fl32 ⟨18003, 25⟩
def DIST_TO_SQ1 : Frac := fl32 ⟨193, 200⟩
def SQUARE_PITCH : Frac := fl32 ⟨3, 2⟩

/-- Model of `calculateSquareTarget` in `v1/v1.ino` (lines 71-77). -/
def calculateSquareTarget (squareNumber : Int) : Int :=
  let n : Int := if squareNumber < 1 then 1 else if 8 < squareNumber then 8 else squareNumber
  let inches : Frac := fl32 (fAdd DIST_TO_SQ1 (fl32 (fMul (fOfInt (n - 1)) SQUARE_PITCH)))
  ratTrunc (fl32 (fMul inches COUNTS_PER_INCH))

end V1

namespace MagMan

/-! Calibration of the first (manual) sketch in
`magnetpt2_copy_20251202162659.ino` (lines 35-43, 106-115). -/

def X_COUNTS_PER_INCH : Frac := fl32 ⟨18003, 25⟩
def X_DIST_TO_SQ1 : Frac := fl32 ⟨193, 200⟩
def X_PITCH : Frac := fl32 ⟨3, 2⟩
def Y_COUNTS_PER_INCH : Frac := fl32 ⟨4500, 1⟩
def Y_WALL_TO_CENTER : Frac := fl32 ⟨3, 4⟩
def Y_MAGNET_OFFSET : Frac := fl32 ⟨19, 20⟩
def Y_PITCH : Frac := fl32 ⟨3, 2⟩

/-- Model of `calculateTargetX` (lines 106-109). -/
def calculateTargetX (fileIndex : Int) : Int :=
  let n : Int := if fileIndex < 1 then 1 else if 8 < fileIndex then 8 else fileIndex
  ratTrunc (fl32 (fMul (fl32 (fAdd X_DIST_TO_SQ1 (fl32 (fMul (fOfInt (n - 1)) X_PITCH)))) X_COUNTS_PER_INCH))

/-- Model of `calculateTargetY` (lines 111-115). -/
def calculateTargetY (rankIndex : Int) : Int :=
  let n : Int := if rankIndex < 1 then 1 else if 8 < rankIndex then 8 else rankIndex
  let totalInches : Frac := fl32 (fAdd (fl32 (fAdd Y_WALL_TO_CENTER Y_MAGNET_OFFSET)) (fl32 (fMul (fOfInt (n - 1)) Y_PITCH)))
  ratTrunc (fl32 (fMul totalInches Y_COUNTS_PER_INCH))

end MagMan

/-! ## Shared text utilities

Arduino `String` operations used by every `parseStandardCommand` variant,
modelled on `List Char`.  A `String` value is represented by its
character list. -/

/-- Arduino `String::trim` removes leading/trailing `isspace` characters. -/
def isSpaceC (c : Char) : Bool :=
  c = ' ' || c = '\t' || c = '\n' || c = Char.ofNat 11 || c = Char.ofNat 12 || c = '\r'

def trimChars (l : List Char) : List Char :=
  ((l.dropWhile isSpaceC).reverse.dropWhile isSpaceC).reverse

def lowerChar (c : Char) : Char :=
  if 'A' ≤ c ∧ c ≤ 'Z' then Char.ofNat (c.toNat + 32) else c

/-- The `p -= 32` normalization applied to a lowercase letter. -/
def upperChar (c : Char) : Char :=
  if 'a' ≤ c ∧ c ≤ 'z' then Char.ofNat (c.toNat - 32) else c

def lowerList (l : List Char) : List Char := l.map lowerChar

/-- The `line.startsWith("CMD ")` prefix test. -/
def startsWithCMD : List Char → Bool
  | 'C' :: 'M' :: 'D' :: ' ' :: _ => true
  | _ => false

/-- The `indexOf(' ')`/`substring` scan of the parsers splits the rest of
the line at every single space character. -/
def splitSp : List Char → List (List Char)
  | [] => [[]]
  | c :: rest =>
    if c = ' ' then [] :: splitSp rest
    else
      match splitSp rest with
      | [] => [[c]]
      | t :: ts => (c :: t) :: ts

/-- The `eq = token.indexOf('='); if (eq > 0)` key/value split: the first
`=` must exist at index ≥ 1. -/
def keyVal (tok : List Char) : Option (List Char × List Char) :=
  match tok.findIdx? (fun c => c = '=') with
  | some i => if 0 < i then some (tok.take i, tok.drop (i + 1)) else none
  | none => none

/-- Arduino `String::toInt` on a digit-led string: value of the leading
digit run. -/
def toIntDigits (l : List Char) : Int :=
  (l.takeWhile fun c => c.isDigit).foldl (fun acc c => acc * 10 + ((c.toNat : Int) - 48)) 0

/-! String literals appearing in the sketches. -/

def kId : String := "id"
def kNota : String := "notation"
def kFrom : String := "from"
def kTo : String := "to"
def kPiece : String := "piece"
def kType : String := "type"
def kSource : String := "source"
def kTimestamp : String := "timestamp"
def kMove : String := "move"
def kMoveU : String := "MOVE"
def kHome : String := "home"
def kConfirm : String := "confirm"
def sUnknown : String := "unknown"
def sBadFormat : String := "bad_format"
def sBusy : String := "busy"
def sInvalidFile : String := "invalid_file"
def sFault : String := "FAULT_HOMING_REQUIRED"

/-- Acknowledgement messages emitted on the BLE notify channel. -/
inductive Ack where
  | accepted : List Char → Ack
  | done : List Char → Ack
  | error : List Char → List Char → Ack
deriving DecidableEq

/-! ## Servo-loop environment

One loop iteration of a blocking `moveToTarget` reads: whether a pending
serial byte is `'s'` (abort), the encoder count, and `millis()`.  A run
is modelled over a finite trace of such polls; `elapsed` is the value of
`millis() - startTime` at that iteration's timeout check.  `finalPos` is
the encoder value read after the motor has stopped (the post-break
validation read / final rest read). -/

structure Poll where
  abortReq : Bool
  pos : Int
  elapsed : Nat
deriving DecidableEq

structure MoveEnv where
  polls : List Poll
  finalPos : Int
deriving DecidableEq

inductive MoveOutcome where
  | Arrived
  | TimedOut
  | Aborted
deriving DecidableEq

/-- Motor command issued during one iteration: `setMotor(pwm, forward)`
or `motorStop()` (logical values, before the per-axis inversion flag). -/
inductive MotorAct where
  | stop : MotorAct
  | run : Nat → Bool → MotorAct
deriving DecidableEq

namespace V11

/-! ## `v1.1/v1.1.ino` — single axis, fault latch, homing/confirm. -/

def SPEED_FAST : Nat := 255
def SPEED_SLOW : Nat := 150
def SLOW_ZONE : Nat := 400
def TOLERANCE : Nat := 10
def CRITICAL_FAULT : Nat := 50
def TIMEOUT_MS : Nat := 10000

structure MoveCmd where
  id : List Char := []
  type : List Char := []
  fromSq : List Char := []
  toSq : List Char := []
  piece : List Char := []
deriving DecidableEq

/-- One `key=value` token of the scan loop (lines 199-218): trim, skip
empty, split at the first `=` (index ≥ 1), trim key and value, lowercase
the key, assign the recognized fields. -/
def applyToken (m : MoveCmd) (t : List Char) : MoveCmd :=
  let tok := trimChars t
  if tok = [] then m
  else
    match keyVal tok with
    | none => m
    | some (k, v) =>
      let key := lowerList (trimChars k)
      let val := trimChars v
      if key = kId.data then { m with id := val }
      else if key = kType.data then { m with type := val }
      else if key = kFrom.data then { m with fromSq := val }
      else if key = kTo.data then { m with toSq := val }
      else if key = kPiece.data then { m with piece := val }
      else m

/-- Model of `parseStandardCommand` in `v1.1.ino` (lines 195-223): prefix `CMD `,
scan tokens, require only a nonempty `id`; `none` plays the role of the
`valid=false` outcome. -/
def parse (l : List Char) : Option MoveCmd :=
  if startsWithCMD l then
    let m := (splitSp (l.drop 4)).foldl applyToken {}
    if m.id = [] then none else some m
  else none

/-- Speed/direction selected by one non-terminal iteration
(lines 150-152). -/
def driveAct (target : Int) (p : Poll) : MotorAct :=
  .run (if SLOW_ZONE < (target - p.pos).natAbs then SPEED_FAST else SPEED_SLOW)
    (0 < target - p.pos)

/-- The `while (true)` body of `moveToTarget` (lines 120-154): abort
check, arrival check, timeout check, else drive and poll again.  Returns
the terminal outcome, the motor commands issued, and the last encoder
reading; `none` when the trace ends before a terminal condition. -/
def moveLoop (target : Int) : List Poll → Option (MoveOutcome × List MotorAct × Int)
  | [] => none
  | p :: rest =>
    if p.abortReq then some (.Aborted, [.stop], p.pos)
    else if (target - p.pos).natAbs ≤ TOLERANCE then some (.Arrived, [.stop], p.pos)
    else if TIMEOUT_MS < p.elapsed then some (.TimedOut, [.stop], p.pos)
    else
      match moveLoop target rest with
      | none => none
      | some (o, acts, q) => some (o, driveAct target p :: acts, q)

/-- A poll at which the loop keeps driving: no abort pending, error
outside tolerance, timeout not yet elapsed. -/
def nonTerm (target : Int) (p : Poll) : Prop :=
  p.abortReq = false ∧ TOLERANCE < (target - p.pos).natAbs ∧ p.elapsed ≤ TIMEOUT_MS

structure RunRes where
  outcome : MoveOutcome
  success : Bool
  acts : List MotorAct
  lastPos : Int
deriving DecidableEq

/-- The body of `moveToTarget` minus its write to `lastFailedTarget`: run the loop;
on arrival re-read the encoder (`finalPos`) and demote to failure when
the deviation exceeds `CRITICAL_FAULT` (lines 157-163); abort and
timeout return `false`. -/
def moveRun (target : Int) (env : MoveEnv) : Option RunRes :=
  match moveLoop target env.polls with
  | none => none
  | some (.Arrived, acts, _) =>
    some ⟨.Arrived,
      if CRITICAL_FAULT < (target - env.finalPos).natAbs then false else true,
      acts, env.finalPos⟩
  | some (.TimedOut, acts, q) => some ⟨.TimedOut, false, acts, q⟩
  | some (.Aborted, acts, q) => some ⟨.Aborted, false, acts, q⟩

/-- Mutable firmware state touched by the command paths: encoder count,
fault latch, remembered target, direction-inversion flag. -/
structure SysState where
  pos : Int
  faulted : Bool
  lastFailedTarget : Int
  invertDirection : Bool
deriving DecidableEq

/-- Model of `moveToTarget` (lines 112-164): unconditionally records the
commanded target in `lastFailedTarget` (line 118), then runs the loop;
the encoder count afterwards is the run's last reading. -/
def moveToTarget (st : SysState) (target : Int) (env : MoveEnv) :
    Option (SysState × RunRes) :=
  (moveRun target env).map fun r =>
    ({ st with lastFailedTarget := target, pos := r.lastPos }, r)

/-- File-letter extraction of the move branch (lines 291-294). -/
def fileIndexOf (toSq : List Char) : Int :=
  let fileChar := toSq.headD (Char.ofNat 0)
  if 'a' ≤ fileChar ∧ fileChar ≤ 'h' then (fileChar.toNat : Int) - 97 + 1
  else if 'A' ≤ fileChar ∧ fileChar ≤ 'H' then (fileChar.toNat : Int) - 65 + 1
  else 0

/-- Model of `CmdWriteCB::onWrite` (lines 241-321): trim, parse, `home` branch
(`performAutoHome`: stop with encoder zeroed and fault cleared),
`confirm` branch (re-seed position from `lastFailedTarget`, clear
fault), fault gate, then the move branch.  The third component reports
the servo outcome when `moveToTarget` was invoked (`none` otherwise);
the result is `none` only when an invoked move's trace is too short to
terminate. -/
def dispatch (st : SysState) (line : List Char) (env : MoveEnv) :
    Option (SysState × List Ack × Option MoveOutcome) :=
  let l := trimChars line
  if l = [] then some (st, [], none)
  else
    match parse l with
    | none => some (st, [.error sUnknown.data sBadFormat.data], none)
    | some cmd =>
      if cmd.type = kHome.data then
        some ({ st with pos := 0, faulted := false },
          [.accepted cmd.id, .done cmd.id], none)
      else if cmd.type = kConfirm.data then
        some ({ st with pos := st.lastFailedTarget, faulted := false },
          [.accepted cmd.id, .done cmd.id], none)
      else if st.faulted then
        some (st, [.error cmd.id sFault.data], none)
      else if cmd.type = kMove.data then
        let fi := fileIndexOf cmd.toSq
        if 1 ≤ fi ∧ fi ≤ 8 then
          match moveToTarget st (calculateSquareTarget fi) env with
          | none => none
          | some (st1, r) =>
            if r.success then
              some (st1, [.accepted cmd.id, .done cmd.id], some r.outcome)
            else
              some ({ st1 with faulted := true },
                [.accepted cmd.id, .error cmd.id sFault.data], some r.outcome)
        else some (st, [.accepted cmd.id, .error cmd.id sInvalidFile.data], none)
      else some (st, [], none)

/-- The manual-command branch of `loop()` (lines 370-393): `z` zeroes
the encoder and clears the fault, `i` toggles inversion, `f`/`r`/`s`
only drive the motor, a digit-led line runs `moveToTarget` with its
result ignored. -/
def handleSerialLine (st : SysState) (input : List Char) (env : MoveEnv) :
    Option (SysState × Option MoveOutcome) :=
  let l := trimChars input
  if l = [] then some (st, none)
  else
    let c := l.headD (Char.ofNat 0)
    if c = 'z' then some ({ st with pos := 0, faulted := false }, none)
    else if c = 'i' then some ({ st with invertDirection := !st.invertDirection }, none)
    else if c = 'f' ∨ c = 'r' ∨ c = 's' then some (st, none)
    else if c.isDigit then
      let v := toIntDigits l
      let target := if 1 ≤ v ∧ v ≤ 8 then calculateSquareTarget v else v
      (moveToTarget st target env).map fun p => (p.1, some p.2.outcome)
    else some (st, none)

end V11

namespace Part0

/-! ## The staged-FSM BLE receiver (second sketch in `unnamed/part_000`). -/

def STAGE2_TRAVEL_MS : Nat := 2500
def STAGE3_MOVE_MS : Nat := 2500
def COOLDOWN_MS : Nat := 5000

structure MoveCmd where
  id : List Char := []
  nota : List Char := []
  fromSq : List Char := []
  toSq : List Char := []
  piece : List Char := []
  type : List Char := []
  source : List Char := []
  timestamp : List Char := []
deriving DecidableEq

/-- One `key=value` token of the scan loop (lines 277-302); the `nota`
field is the sketch's `notation` key. -/
def applyToken (m : MoveCmd) (t : List Char) : MoveCmd :=
  let tok := trimChars t
  if tok = [] then m
  else
    match keyVal tok with
    | none => m
    | some (k, v) =>
      let key := lowerList (trimChars k)
      let val := trimChars v
      if key = kId.data then { m with id := val }
      else if key = kNota.data then { m with nota := val }
      else if key = kFrom.data then { m with fromSq := val }
      else if key = kTo.data then { m with toSq := val }
      else if key = kPiece.data then { m with piece := val }
      else if key = kType.data then { m with type := val }
      else if key = kSource.data then { m with source := val }
      else if key = kTimestamp.data then { m with timestamp := val }
      else m

/-- The `isSquare` lambda (lines 315-319): two characters, file in
`a..h`, rank in `1..8`. -/
def isSquare (sq : List Char) : Bool :=
  match sq with
  | [f, r] => decide ('a' ≤ f) && decide (f ≤ 'h') && decide ('1' ≤ r) && decide (r ≤ '8')
  | _ => false

/-- Model of `parseStandardCommand` in the staged sketch (lines 272-331): prefix,
token scan, required fields `id notation from to piece`, optional `type`
restricted to `move`/`MOVE`, square validation, piece normalized to an
uppercase letter in `PNBRQK`. -/
def parse (l : List Char) : Option MoveCmd :=
  if startsWithCMD l then
    let m := (splitSp (l.drop 4)).foldl applyToken {}
    if m.id = [] ∨ m.nota = [] ∨ m.fromSq = [] ∨ m.toSq = [] ∨ m.piece = [] then none
    else if m.type ≠ [] ∧ ¬(m.type = kMove.data ∨ m.type = kMoveU.data) then none
    else if isSquare m.fromSq ∧ isSquare m.toSq then
      let p := upperChar (m.piece.headD (Char.ofNat 0))
      if p = 'P' ∨ p = 'N' ∨ p = 'B' ∨ p = 'R' ∨ p = 'Q' ∨ p = 'K' then
        some { m with piece := [p] }
      else none
    else none
  else none

inductive StageState where
  | STAGE_IDLE
  | STAGE_MOVE_TRAVEL
  | STAGE_MOVE_PICKPLACE
  | STAGE_COOLDOWN
deriving DecidableEq

structure FsmState where
  stageState : StageState
  stageStartMs : Nat
deriving DecidableEq

/-- Model of `enterStage` (lines 251-269): set the stage and stamp its entry
time. -/
def enterStage (s : StageState) (now : Nat) : FsmState := ⟨s, now⟩

/-- The stage-timer part of `loop()` (lines 443-465): each non-idle
stage advances exactly when its elapsed time reaches the stage's fixed
threshold. -/
def loopTick (st : FsmState) (now : Nat) : FsmState :=
  match st.stageState with
  | .STAGE_IDLE => st
  | .STAGE_MOVE_TRAVEL =>
    if STAGE2_TRAVEL_MS ≤ now - st.stageStartMs then enterStage .STAGE_MOVE_PICKPLACE now else st
  | .STAGE_MOVE_PICKPLACE =>
    if STAGE3_MOVE_MS ≤ now - st.stageStartMs then enterStage .STAGE_COOLDOWN now else st
  | .STAGE_COOLDOWN =>
    if COOLDOWN_MS ≤ now - st.stageStartMs then enterStage .STAGE_IDLE now else st

/-- Model of `CmdWriteCB::onWrite` (lines 348-390): trim, parse (`bad_format` on
failure), reject with `busy` while the stage is not idle, otherwise ack
accepted/done and start the staged flow. -/
def onWrite (st : FsmState) (line : List Char) (now : Nat) : FsmState × List Ack :=
  let l := trimChars line
  if l = [] then (st, [])
  else
    match parse l with
    | none => (st, [.error sUnknown.data sBadFormat.data])
    | some cmd =>
      if st.stageState ≠ .STAGE_IDLE then (st, [.error cmd.id sBusy.data])
      else (enterStage .STAGE_MOVE_TRAVEL now, [.accepted cmd.id, .done cmd.id])

end Part0

namespace MagXY

/-! ## The BLE XY sketch (second sketch in
`magnetpt2_copy_20251202162659.ino`, lines 330-739). -/

def X_COUNTS_PER_INCH : Frac := fl32 ⟨18003, 25⟩
def X_DIST_TO_SQ1 : Frac := fl32 ⟨193, 200⟩
def X_PITCH : Frac := fl32 ⟨3, 2⟩
def Y_COUNTS_PER_INCH : Frac := fl32 ⟨4500, 1⟩
def Y_HOME_TO_CENTER : Frac := fl32 ⟨3, 4⟩
def Y_MAGNET_OFFSET : Frac := fl32 ⟨1, 2⟩
def Y_PITCH : Frac := fl32 ⟨3, 2⟩

def MAX_SPEED : Nat := 255
def SLOW_ZONE_X : Nat := 400
def MIN_SPEED_X : Nat := 150
def MIN_SPEED_Y : Nat := 170
def PRE_STOP_Y : Nat := 2500
def TOLERANCE : Nat := 15
def TIMEOUT_MS : Nat := 10000

/-- Model of `calculateTargetX` (lines 426-429). -/
def calculateTargetX (fileIndex : Int) : Int :=
  let n : Int := if fileIndex < 1 then 1 else if 8 < fileIndex then 8 else fileIndex
  ratTrunc (fl32 (fMul (fl32 (fAdd X_DIST_TO_SQ1 (fl32 (fMul (fOfInt (n - 1)) X_PITCH)))) X_COUNTS_PER_INCH))

/-- Model of `calculateTargetY` (lines 431-437). -/
def calculateTargetY (rankIndex : Int) : Int :=
  let n : Int := if rankIndex < 1 then 1 else if 8 < rankIndex then 8 else rankIndex
  let totalInches : Frac :=
    fl32 (fAdd (fl32 (fAdd Y_HOME_TO_CENTER Y_MAGNET_OFFSET)) (fl32 (fMul (fOfInt (n - 1)) Y_PITCH)))
  ratTrunc (fl32 (fMul totalInches Y_COUNTS_PER_INCH))

structure MoveCmd where
  id : List Char := []
  type : List Char := []
  toSq : List Char := []
  piece : List Char := []
deriving DecidableEq

/-- One `key=value` token of the scan loop (lines 576-594); recognized
keys are `id type to piece`. -/
def applyToken (m : MoveCmd) (t : List Char) : MoveCmd :=
  let tok := trimChars t
  if tok = [] then m
  else
    match keyVal tok with
    | none => m
    | some (k, v) =>
      let key := lowerList (trimChars k)
      let val := trimChars v
      if key = kId.data then { m with id := val }
      else if key = kType.data then { m with type := val }
      else if key = kTo.data then { m with toSq := val }
      else if key = kPiece.data then { m with piece := val }
      else m

/-- Model of `parseStandardCommand` in the XY sketch (lines 572-599): requires
only a nonempty `id`. -/
def parse (l : List Char) : Option MoveCmd :=
  if startsWithCMD l then
    let m := (splitSp (l.drop 4)).foldl applyToken {}
    if m.id = [] then none else some m
  else none

/-- The `while (true)` body of the XY `moveToTarget` (lines 490-551):
abort check; stop when within tolerance or (Y axis) past the pre-stop
cutoff; timeout check; else keep driving. -/
def moveLoop (target cutoff : Int) (forward isY : Bool) :
    List Poll → Option (MoveOutcome × Int)
  | [] => none
  | p :: rest =>
    if p.abortReq then some (.Aborted, p.pos)
    else
      let dist := (target - p.pos).natAbs
      if (if isY then dist ≤ TOLERANCE ∨ (forward ∧ cutoff ≤ p.pos) ∨ (¬forward ∧ p.pos ≤ cutoff)
          else (dist ≤ TOLERANCE : Prop)) then some (.Arrived, p.pos)
      else if TIMEOUT_MS < p.elapsed then some (.TimedOut, p.pos)
      else moveLoop target cutoff forward isY rest

/-- Cutoff-point computation and terminal handling of the XY
`moveToTarget` (lines 477-527): `forward = target > startPos`; a long Y
move cuts power `PRE_STOP_Y` counts early; on a stop the final rest
position is re-read (`env.finalPos`); abort and timeout return
`false`. -/
def moveRun (target startPos : Int) (isY : Bool) (env : MoveEnv) : Option (Bool × Int) :=
  let forward := startPos < target
  let cutoff : Int :=
    if isY ∧ PRE_STOP_Y < (target - startPos).natAbs then
      (if forward then target - (PRE_STOP_Y : Int) else target + (PRE_STOP_Y : Int))
    else target
  match moveLoop target cutoff forward isY env.polls with
  | none => none
  | some (.Arrived, _) => some (true, env.finalPos)
  | some (.TimedOut, q) => some (false, q)
  | some (.Aborted, q) => some (false, q)

structure SysState where
  posX : Int
  posY : Int
  faulted : Bool
  lastFailedTargetX : Int
  lastFailedTargetY : Int
deriving DecidableEq

/-- Model of `moveToTarget(activeEnc, target, axisID)` (lines 466-552): records
the commanded target in the axis's `lastFailedTarget` (line 472)
unconditionally, reads the start position from the axis encoder, runs
the loop, and leaves the axis position at the run's last reading. -/
def moveToTarget (st : SysState) (target : Int) (isY : Bool) (env : MoveEnv) :
    Option (SysState × Bool) :=
  let startPos := if isY then st.posY else st.posX
  (moveRun target startPos isY env).map fun r =>
    (if isY then { st with lastFailedTargetY := target, posY := r.2 }
     else { st with lastFailedTargetX := target, posX := r.2 }, r.1)

/-- Model of `CmdWriteCB::onWrite` (lines 606-644): `home` zeroes both encoders
(without touching the fault flag); `move` runs X then Y, latching the
fault and reporting `FAULT_HOMING_REQUIRED` on the first failure; any
other type does nothing. -/
def dispatch (st : SysState) (line : List Char) (envX envY : MoveEnv) :
    Option (SysState × List Ack) :=
  let l := trimChars line
  if l = [] then some (st, [])
  else
    match parse l with
    | none => some (st, [.error sUnknown.data sBadFormat.data])
    | some cmd =>
      if cmd.type = kHome.data then
        some ({ st with posX := 0, posY := 0 }, [.accepted cmd.id, .done cmd.id])
      else if cmd.type = kMove.data then
        let file := cmd.toSq.headD (Char.ofNat 0)
        let rank := (cmd.toSq.drop 1).headD (Char.ofNat 0)
        let fileIdx : Int :=
          if 'a' ≤ file then (file.toNat : Int) - 97 + 1 else (file.toNat : Int) - 65 + 1
        let rankIdx : Int := (rank.toNat : Int) - 48
        match moveToTarget st (calculateTargetX fileIdx) false envX with
        | none => none
        | some (st1, okX) =>
          if okX then
            match moveToTarget st1 (calculateTargetY rankIdx) true envY with
            | none => none
            | some (st2, okY) =>
              if okY then some (st2, [.accepted cmd.id, .done cmd.id])
              else some ({ st2 with faulted := true },
                [.accepted cmd.id, .error cmd.id sFault.data])
          else some ({ st1 with faulted := true },
            [.accepted cmd.id, .error cmd.id sFault.data])
      else some (st, [])

end MagXY

/-! ## Inputs used by concrete theorems -/

set_option maxRecDepth 1000000

def c5Line : String := "CMD id=1 from=e2 to=e4 piece=p type=move"
def c5LineWithNota : String := "CMD id=1 notation=e4 from=e2 to=e4 piece=p type=move"
def c6Line : String := "CMD id=2 to=j9 piece=q from=a1"
def idOne : String := "1"
def idTwo : String := "2"
def pLow : String := "p"
def pUp : String := "P"
def qLow : String := "q"
def sqE2 : String := "e2"
def sqE4 : String := "e4"
def sqA1 : String := "a1"
def sqJ9 : String := "j9"

/-! ## Theorems -/

/-- C7: on square indices 1..8, `calculateSquareTarget` (v1) and the
dual-axis `calculateTargetX`/`calculateTargetY` are strictly increasing,
adjacent targets differ by `squarePitch × countsPerInch` within one
count of rounding, and every target agrees with the exact real-number
linear mapping `(distanceToSquareOne + (n-1)·squarePitch)·countsPerInch`
to within one count. -/
theorem C7_calibration_linear :
    (∀ n : ℕ, n < 7 →
      V1.calculateSquareTarget ((n : ℤ) + 1) < V1.calculateSquareTarget ((n : ℤ) + 2) ∧
      fLe (fAbs (fSub (fOfInt (V1.calculateSquareTarget ((n : ℤ) + 2) -
          V1.calculateSquareTarget ((n : ℤ) + 1)))
        (fMul V1.SQUARE_PITCH V1.COUNTS_PER_INCH))) (fOfInt 1) ∧
      MagMan.calculateTargetX ((n : ℤ) + 1) < MagMan.calculateTargetX ((n : ℤ) + 2) ∧
      fLe (fAbs (fSub (fOfInt (MagMan.calculateTargetX ((n : ℤ) + 2) -
          MagMan.calculateTargetX ((n : ℤ) + 1)))
        (fMul MagMan.X_PITCH MagMan.X_COUNTS_PER_INCH))) (fOfInt 1) ∧
      MagMan.calculateTargetY ((n : ℤ) + 1) < MagMan.calculateTargetY ((n : ℤ) + 2) ∧
      fLe (fAbs (fSub (fOfInt (MagMan.calculateTargetY ((n : ℤ) + 2) -
          MagMan.calculateTargetY ((n : ℤ) + 1)))
        (fMul MagMan.Y_PITCH MagMan.Y_COUNTS_PER_INCH))) (fOfInt 1)) ∧
    (∀ n : ℕ, n < 8 →
      fLe (fAbs (fSub (fOfInt (V1.calculateSquareTarget ((n : ℤ) + 1)))
        (fMul (fAdd ⟨193, 200⟩ (fMul (fOfInt (n : ℤ)) ⟨3, 2⟩)) ⟨18003, 25⟩))) (fOfInt 1)) := by
  decide

/-- C7 witness: the calibration theorem applied at the first square
pair. -/
theorem C7_calibration_linear_witness :
    (0 : ℕ) < 7 ∧
    V1.calculateSquareTarget (((0 : ℕ) : ℤ) + 1) < V1.calculateSquareTarget (((0 : ℕ) : ℤ) + 2) :=
  ⟨by decide, (C7_calibration_linear.1 0 (by decide)).1⟩

/-- C5 counterexample: on the exact line of the claim the strict parser
(`part_000`) rejects (its required `notation` key is missing), and the
v1.1 parser accepts but leaves `piece` as the lowercase `p`, so no
parser yields a valid command with `piece = "P"` on this input. -/
theorem C5_parse_piece_counterexample :
    Part0.parse c5Line.data = none ∧
    (V11.parse c5Line.data).map (fun c => c.piece) = some pLow.data ∧
    pLow.data ≠ pUp.data := by decide

/-- C5 amended: parsing the claim's line succeeds only in the v1.1
parser, with `fromSq = "e2"`, `toSq = "e4"` and `piece` kept lowercase;
the strict parser accepts once `notation` is supplied and then does
normalize `piece` to uppercase `P`. -/
theorem C5_parse_piece_amended :
    V11.parse c5Line.data =
      some { id := idOne.data, type := kMove.data, fromSq := sqE2.data,
             toSq := sqE4.data, piece := pLow.data } ∧
    Part0.parse c5LineWithNota.data =
      some { id := idOne.data, nota := sqE4.data, fromSq := sqE2.data, toSq := sqE4.data,
             piece := pUp.data, type := kMove.data, source := [], timestamp := [] } := by
  decide

/-! ### Servo-loop lemmas for `v1.1` -/

theorem v11_moveLoop_cons_nonTerm (target : Int) (q : Poll) (l : List Poll)
    (hq : V11.nonTerm target q) :
    V11.moveLoop target (q :: l) =
      (V11.moveLoop target l).map (fun r => (r.1, V11.driveAct target q :: r.2.1, r.2.2)) := by
  obtain ⟨h1, h2, h3⟩ := hq
  simp only [V11.moveLoop, h1, Bool.false_eq_true, if_false,
    if_neg (Nat.not_le.mpr h2), if_neg (Nat.not_lt.mpr h3)]
  cases V11.moveLoop target l with
  | none => rfl
  | some r => rfl

theorem v11_moveLoop_timeout (target : Int) (pre : List Poll) (p : Poll) (rest : List Poll)
    (hpre : ∀ q ∈ pre, V11.nonTerm target q) (h1 : p.abortReq = false)
    (h2 : V11.TOLERANCE < (target - p.pos).natAbs) (h3 : V11.TIMEOUT_MS < p.elapsed) :
    V11.moveLoop target (pre ++ p :: rest) =
      some (.TimedOut, pre.map (V11.driveAct target) ++ [.stop], p.pos) := by
  induction pre with
  | nil =>
    simp only [List.nil_append, V11.moveLoop, h1, Bool.false_eq_true, if_false,
      if_neg (Nat.not_le.mpr h2), if_pos h3, List.map_nil]
  | cons q pre ih =>
    have hq := hpre q (List.mem_cons_self q pre)
    rw [List.cons_append, v11_moveLoop_cons_nonTerm target q _ hq,
      ih (fun r hr => hpre r (List.mem_cons_of_mem q hr))]
    rfl

theorem v11_moveLoop_abort (target : Int) (pre : List Poll) (p : Poll) (rest : List Poll)
    (hpre : ∀ q ∈ pre, V11.nonTerm target q) (h1 : p.abortReq = true) :
    V11.moveLoop target (pre ++ p :: rest) =
      some (.Aborted, pre.map (V11.driveAct target) ++ [.stop], p.pos) := by
  induction pre with
  | nil =>
    simp only [List.nil_append, V11.moveLoop, h1, if_true, List.map_nil]
  | cons q pre ih =>
    have hq := hpre q (List.mem_cons_self q pre)
    rw [List.cons_append, v11_moveLoop_cons_nonTerm target q _ hq,
      ih (fun r hr => hpre r (List.mem_cons_of_mem q hr))]
    rfl

/-! ### Dispatcher branch lemmas for `v1.1` -/

theorem v11_parse_nil : V11.parse ([] : List Char) = none := rfl

theorem v11_trim_ne_nil_of_parse {line : List Char} {cmd : V11.MoveCmd}
    (h : V11.parse (trimChars line) = some cmd) : trimChars line ≠ [] := by
  intro h0
  rw [h0, v11_parse_nil] at h
  cases h

theorem v11_dispatch_home (st : V11.SysState) (line : List Char) (env : MoveEnv)
    (cmd : V11.MoveCmd) (hp : V11.parse (trimChars line) = some cmd)
    (ht : cmd.type = kHome.data) :
    V11.dispatch st line env =
      some ({ st with pos := 0, faulted := false }, [.accepted cmd.id, .done cmd.id], none) := by
  have hne := v11_trim_ne_nil_of_parse hp
  simp only [V11.dispatch, hp, ht, hne, if_false]
  simp

theorem v11_dispatch_confirm (st : V11.SysState) (line : List Char) (env : MoveEnv)
    (cmd : V11.MoveCmd) (hp : V11.parse (trimChars line) = some cmd)
    (ht : cmd.type = kConfirm.data) :
    V11.dispatch st line env =
      some ({ st with pos := st.lastFailedTarget, faulted := false },
        [.accepted cmd.id, .done cmd.id], none) := by
  have hne := v11_trim_ne_nil_of_parse hp
  have hch : kConfirm.data ≠ kHome.data := by decide
  simp only [V11.dispatch, hp, ht, hne, if_false, hch]
  simp

theorem v11_dispatch_faulted_move (st : V11.SysState) (line : List Char) (env : MoveEnv)
    (cmd : V11.MoveCmd) (hp : V11.parse (trimChars line) = some cmd)
    (ht : cmd.type = kMove.data) (hf : st.faulted = true) :
    V11.dispatch st line env = some (st, [.error cmd.id sFault.data], none) := by
  have hne := v11_trim_ne_nil_of_parse hp
  have hmh : kMove.data ≠ kHome.data := by decide
  have hmc : kMove.data ≠ kConfirm.data := by decide
  simp only [V11.dispatch, hp, ht, hne, hf, hmh, hmc, if_false, if_true]

theorem v11_dispatch_move (st : V11.SysState) (line : List Char) (env : MoveEnv)
    (cmd : V11.MoveCmd) (r : V11.RunRes) (hp : V11.parse (trimChars line) = some cmd)
    (ht : cmd.type = kMove.data) (hf : st.faulted = false)
    (hfi1 : 1 ≤ V11.fileIndexOf cmd.toSq) (hfi8 : V11.fileIndexOf cmd.toSq ≤ 8)
    (hr : V11.moveRun (V11.calculateSquareTarget (V11.fileIndexOf cmd.toSq)) env = some r) :
    V11.dispatch st line env =
      if r.success then
        some ({ st with pos := r.lastPos,
                        lastFailedTarget := V11.calculateSquareTarget (V11.fileIndexOf cmd.toSq) },
          [.accepted cmd.id, .done cmd.id], some r.outcome)
      else
        some ({ st with pos := r.lastPos,
                        faulted := true,
                        lastFailedTarget := V11.calculateSquareTarget (V11.fileIndexOf cmd.toSq) },
          [.accepted cmd.id, .error cmd.id sFault.data], some r.outcome) := by
  have hne := v11_trim_ne_nil_of_parse hp
  have hmh : kMove.data ≠ kHome.data := by decide
  have hmc : kMove.data ≠ kConfirm.data := by decide
  simp only [V11.dispatch, hp, ht, hne, hf, hmh, hmc, if_false, V11.moveToTarget, hr,
    Option.map_some']
  simp only [if_pos (And.intro hfi1 hfi8)]
  cases hs : r.success <;> simp [hs]

def c1Line : String := "CMD id=7 type=move to=a1"
def c1Id : String := "7"

/-- C1: a move whose error never enters tolerance until past the
timeout makes `moveToTarget` fail as TimedOut and the dispatcher latch
the fault and answer `FAULT_HOMING_REQUIRED`; while the latch is set
every dispatched `move` command is answered `FAULT_HOMING_REQUIRED`
with the state untouched and the servo never invoked; `home`, `confirm`
and the serial `z` command clear the latch. -/
theorem C1_timeout_latches_fault_and_blocks_moves :
    (∀ (st : V11.SysState) (line : List Char) (env : MoveEnv) (cmd : V11.MoveCmd)
        (pre : List Poll) (p : Poll) (rest : List Poll),
      V11.parse (trimChars line) = some cmd → cmd.type = kMove.data →
      st.faulted = false →
      1 ≤ V11.fileIndexOf cmd.toSq → V11.fileIndexOf cmd.toSq ≤ 8 →
      env.polls = pre ++ p :: rest →
      (∀ q ∈ pre, V11.nonTerm (V11.calculateSquareTarget (V11.fileIndexOf cmd.toSq)) q) →
      p.abortReq = false →
      V11.TOLERANCE < (V11.calculateSquareTarget (V11.fileIndexOf cmd.toSq) - p.pos).natAbs →
      V11.TIMEOUT_MS < p.elapsed →
      V11.dispatch st line env =
        some ({ st with pos := p.pos,
                        faulted := true,
                        lastFailedTarget := V11.calculateSquareTarget (V11.fileIndexOf cmd.toSq) },
          [.accepted cmd.id, .error cmd.id sFault.data], some .TimedOut)) ∧
    (∀ (st : V11.SysState) (line : List Char) (env : MoveEnv) (cmd : V11.MoveCmd),
      V11.parse (trimChars line) = some cmd → cmd.type = kMove.data → st.faulted = true →
      V11.dispatch st line env = some (st, [.error cmd.id sFault.data], none)) ∧
    (∀ (st : V11.SysState) (line : List Char) (env : MoveEnv) (cmd : V11.MoveCmd),
      V11.parse (trimChars line) = some cmd → cmd.type = kHome.data →
      (V11.dispatch st line env).map (fun r => r.1.faulted) = some false) ∧
    (∀ (st : V11.SysState) (line : List Char) (env : MoveEnv) (cmd : V11.MoveCmd),
      V11.parse (trimChars line) = some cmd → cmd.type = kConfirm.data →
      (V11.dispatch st line env).map (fun r => r.1.faulted) = some false) ∧
    (∀ (st : V11.SysState) (input : List Char) (env : MoveEnv),
      (trimChars input).headD (Char.ofNat 0) = 'z' →
      V11.handleSerialLine st input env = some ({ st with pos := 0, faulted := false }, none)) := by
  refine ⟨?_, ?_, ?_, ?_, ?_⟩
  · intro st line env cmd pre p rest hp ht hf hfi1 hfi8 henv hpre h1 h2 h3
    have hml := v11_moveLoop_timeout (V11.calculateSquareTarget (V11.fileIndexOf cmd.toSq))
      pre p rest hpre h1 h2 h3
    have hmr : V11.moveRun (V11.calculateSquareTarget (V11.fileIndexOf cmd.toSq)) env =
        some ⟨.TimedOut, false,
          pre.map (V11.driveAct (V11.calculateSquareTarget (V11.fileIndexOf cmd.toSq))) ++ [.stop],
          p.pos⟩ := by
      simp only [V11.moveRun, henv, hml]
    have := v11_dispatch_move st line env cmd _ hp ht hf hfi1 hfi8 hmr
    simpa using this
  · intro st line env cmd hp ht hf
    exact v11_dispatch_faulted_move st line env cmd hp ht hf
  · intro st line env cmd hp ht
    rw [v11_dispatch_home st line env cmd hp ht]
    rfl
  · intro st line env cmd hp ht
    rw [v11_dispatch_confirm st line env cmd hp ht]
    rfl
  · intro st input env hz
    have hne : trimChars input ≠ [] := by
      intro h0
      rw [h0] at hz
      cases hz
    simp only [V11.handleSerialLine, hne, if_false, hz]
    simp

/-- C1 witness: the theorem applied to a concrete faulting move (square
a1, one poll far from target past the timeout) and to the recovery
branches. -/
theorem C1_timeout_latches_fault_and_blocks_moves_witness :
    V11.dispatch ⟨0, false, 0, true⟩ c1Line.data ⟨[⟨false, 5000, 20000⟩], 0⟩ =
      some ({ pos := 5000, faulted := true,
              lastFailedTarget := V11.calculateSquareTarget (V11.fileIndexOf sqA1.data),
              invertDirection := true },
        [.accepted c1Id.data, .error c1Id.data sFault.data], some .TimedOut) ∧
    V11.dispatch ⟨5000, true, 694, true⟩ c1Line.data ⟨[], 0⟩ =
      some (⟨5000, true, 694, true⟩, [.error c1Id.data sFault.data], none) := by
  constructor
  · exact C1_timeout_latches_fault_and_blocks_moves.1 ⟨0, false, 0, true⟩ c1Line.data
      ⟨[⟨false, 5000, 20000⟩], 0⟩
      { id := c1Id.data, type := kMove.data, fromSq := [], toSq := sqA1.data, piece := [] }
      [] ⟨false, 5000, 20000⟩ [] (by decide) rfl rfl (by decide) (by decide) rfl
      (by simp) rfl (by decide) (by decide)
  · exact C1_timeout_latches_fault_and_blocks_moves.2.1 ⟨5000, true, 694, true⟩ c1Line.data
      ⟨[], 0⟩
      { id := c1Id.data, type := kMove.data, fromSq := [], toSq := sqA1.data, piece := [] }
      (by decide) rfl rfl

theorem v11_moveToTarget_fields (st : V11.SysState) (target : Int) (env : MoveEnv)
    (st1 : V11.SysState) (r : V11.RunRes)
    (h : V11.moveToTarget st target env = some (st1, r)) :
    st1.lastFailedTarget = target ∧ st1.faulted = st.faulted ∧
    st1.invertDirection = st.invertDirection ∧ st1.pos = r.lastPos := by
  simp only [V11.moveToTarget, Option.map_eq_some'] at h
  obtain ⟨r', hr', heq⟩ := h
  rw [Prod.mk.injEq] at heq
  obtain ⟨h1, h2⟩ := heq
  subst h2
  rw [← h1]
  simp

theorem magxy_moveToTarget_fields_x (st : MagXY.SysState) (target : Int) (env : MoveEnv)
    (st1 : MagXY.SysState) (ok : Bool)
    (h : MagXY.moveToTarget st target false env = some (st1, ok)) :
    st1.lastFailedTargetX = target ∧ st1.lastFailedTargetY = st.lastFailedTargetY ∧
    st1.faulted = st.faulted := by
  simp only [MagXY.moveToTarget, Option.map_eq_some', Bool.false_eq_true, if_false] at h
  obtain ⟨r', hr', heq⟩ := h
  rw [Prod.mk.injEq] at heq
  obtain ⟨h1, h2⟩ := heq
  rw [← h1]
  simp

theorem magxy_moveToTarget_fields_y (st : MagXY.SysState) (target : Int) (env : MoveEnv)
    (st1 : MagXY.SysState) (ok : Bool)
    (h : MagXY.moveToTarget st target true env = some (st1, ok)) :
    st1.lastFailedTargetY = target ∧ st1.lastFailedTargetX = st.lastFailedTargetX ∧
    st1.faulted = st.faulted := by
  simp only [MagXY.moveToTarget, Option.map_eq_some', if_true] at h
  obtain ⟨r', hr', heq⟩ := h
  rw [Prod.mk.injEq] at heq
  obtain ⟨h1, h2⟩ := heq
  rw [← h1]
  simp

def c2Line : String := "CMD id=9 type=move to=a1"
def c2Id : String := "9"

/-- C2 counterexample: an operator abort during a BLE-dispatched move
does set the fault latch — starting from a state with `faulted = false`
and an abort pending at the first poll, the dispatched move ends as
Aborted yet the resulting state carries `faulted = true`, contradicting
the claim that the flag keeps its pre-move value across the abort. -/
theorem C2_abort_counterexample :
    (⟨0, false, 0, true⟩ : V11.SysState).faulted = false ∧
    V11.dispatch ⟨0, false, 0, true⟩ c2Line.data ⟨[⟨true, 0, 0⟩], 0⟩ =
      some (⟨0, true, 694, true⟩,
        [.accepted c2Id.data, .error c2Id.data sFault.data], some .Aborted) ∧
    (⟨0, true, 694, true⟩ : V11.SysState).faulted = true := by decide

/-- C2 amended: an abort observed at a poll stops the motor at that very
iteration (the action trace is the drive commands of the earlier polls
followed by one stop) and terminates the move as Aborted with a failure
result; `moveToTarget` itself and serially-dispatched moves leave the
fault flag unchanged, but the v1.1 BLE dispatcher cannot distinguish an
abort from a timeout and latches `faulted = true` on the aborted
move. -/
theorem C2_abort_behavior_amended :
    (∀ (target : Int) (pre : List Poll) (p : Poll) (rest : List Poll),
      (∀ q ∈ pre, V11.nonTerm target q) → p.abortReq = true →
      V11.moveLoop target (pre ++ p :: rest) =
        some (.Aborted, pre.map (V11.driveAct target) ++ [.stop], p.pos)) ∧
    (∀ (target : Int) (env : MoveEnv) (r : V11.RunRes),
      V11.moveRun target env = some r → r.outcome = .Aborted → r.success = false) ∧
    (∀ (st : V11.SysState) (target : Int) (env : MoveEnv) (st1 : V11.SysState) (r : V11.RunRes),
      V11.moveToTarget st target env = some (st1, r) → st1.faulted = st.faulted) ∧
    (∀ (st : V11.SysState) (input : List Char) (env : MoveEnv) (st1 : V11.SysState)
        (o : MoveOutcome),
      V11.handleSerialLine st input env = some (st1, some o) → st1.faulted = st.faulted) ∧
    (∀ (st : V11.SysState) (line : List Char) (env : MoveEnv) (cmd : V11.MoveCmd)
        (pre : List Poll) (p : Poll) (rest : List Poll),
      V11.parse (trimChars line) = some cmd → cmd.type = kMove.data → st.faulted = false →
      1 ≤ V11.fileIndexOf cmd.toSq → V11.fileIndexOf cmd.toSq ≤ 8 →
      env.polls = pre ++ p :: rest →
      (∀ q ∈ pre, V11.nonTerm (V11.calculateSquareTarget (V11.fileIndexOf cmd.toSq)) q) →
      p.abortReq = true →
      V11.dispatch st line env =
        some ({ st with pos := p.pos,
                        faulted := true,
                        lastFailedTarget := V11.calculateSquareTarget (V11.fileIndexOf cmd.toSq) },
          [.accepted cmd.id, .error cmd.id sFault.data], some .Aborted)) := by
  refine ⟨?_, ?_, ?_, ?_, ?_⟩
  · intro target pre p rest hpre h1
    exact v11_moveLoop_abort target pre p rest hpre h1
  · intro target env r h hout
    simp only [V11.moveRun] at h
    split at h
    · cases h
    · rw [Option.some_inj] at h
      rw [← h] at hout
      cases hout
    · rw [Option.some_inj] at h
      rw [← h]
    · rw [Option.some_inj] at h
      rw [← h]
  · intro st target env st1 r h
    exact (v11_moveToTarget_fields st target env st1 r h).2.1
  · intro st input env st1 o h
    simp only [V11.handleSerialLine] at h
    split at h
    · simp at h
    · split at h
      · simp at h
      · split at h
        · simp at h
        · split at h
          · simp at h
          · split at h
            · rw [Option.map_eq_some'] at h
              obtain ⟨pp, hpp, heq⟩ := h
              obtain ⟨stp, rp⟩ := pp
              rw [Prod.mk.injEq] at heq
              obtain ⟨h1, _⟩ := heq
              rw [← h1]
              exact (v11_moveToTarget_fields st _ env stp rp hpp).2.1
            · simp at h
  · intro st line env cmd pre p rest hp ht hf hfi1 hfi8 henv hpre h1
    have hml := v11_moveLoop_abort (V11.calculateSquareTarget (V11.fileIndexOf cmd.toSq))
      pre p rest hpre h1
    have hmr : V11.moveRun (V11.calculateSquareTarget (V11.fileIndexOf cmd.toSq)) env =
        some ⟨.Aborted, false,
          pre.map (V11.driveAct (V11.calculateSquareTarget (V11.fileIndexOf cmd.toSq))) ++ [.stop],
          p.pos⟩ := by
      simp only [V11.moveRun, henv, hml]
    have := v11_dispatch_move st line env cmd _ hp ht hf hfi1 hfi8 hmr
    simpa using this

/-- C2 witness: the amended theorem applied to a concrete aborted move
(abort pending at the first poll of square a1's move) and to a concrete
serially-dispatched aborted move. -/
theorem C2_abort_behavior_amended_witness :
    V11.moveLoop 100 [⟨true, 0, 0⟩] = some (.Aborted, [.stop], 0) ∧
    (⟨0, false, 694, true⟩ : V11.SysState).faulted = (⟨0, false, 0, true⟩ : V11.SysState).faulted ∧
    V11.dispatch ⟨0, false, 0, true⟩ c2Line.data ⟨[⟨true, 0, 0⟩], 0⟩ =
      some ({ pos := 0, faulted := true,
              lastFailedTarget := V11.calculateSquareTarget (V11.fileIndexOf sqA1.data),
              invertDirection := true },
        [.accepted c2Id.data, .error c2Id.data sFault.data], some .Aborted) := by
  refine ⟨?_, ?_, ?_⟩
  · exact C2_abort_behavior_amended.1 100 [] ⟨true, 0, 0⟩ [] (by simp) rfl
  · exact C2_abort_behavior_amended.2.2.1 ⟨0, false, 0, true⟩ 694 ⟨[⟨true, 0, 0⟩], 0⟩
      ⟨0, false, 694, true⟩ ⟨.Aborted, false, [.stop], 0⟩ (by decide)
  · exact C2_abort_behavior_amended.2.2.2.2 ⟨0, false, 0, true⟩ c2Line.data ⟨[⟨true, 0, 0⟩], 0⟩
      { id := c2Id.data, type := kMove.data, fromSq := [], toSq := sqA1.data, piece := [] }
      [] ⟨true, 0, 0⟩ [] (by decide) rfl rfl (by decide) (by decide) rfl (by simp) rfl

def c4Line : String := "CMD id=4 type=confirm"
def c4Id : String := "4"

/-- C4: a `confirm` command, in any state, re-seeds the encoder count to
`lastFailedTarget` and clears the fault flag; the result is the same
whatever the servo environment holds (no hardware verification); a
following move whose first poll still reads that synthetic position
computes its error against it, arriving immediately exactly when the new
target is within tolerance of `lastFailedTarget`. -/
theorem C4_confirm_synthetic_position :
    (∀ (st : V11.SysState) (line : List Char) (env : MoveEnv) (cmd : V11.MoveCmd),
      V11.parse (trimChars line) = some cmd → cmd.type = kConfirm.data →
      V11.dispatch st line env =
        some ({ st with pos := st.lastFailedTarget, faulted := false },
          [.accepted cmd.id, .done cmd.id], none)) ∧
    (∀ (st : V11.SysState) (line : List Char) (env env' : MoveEnv) (cmd : V11.MoveCmd),
      V11.parse (trimChars line) = some cmd → cmd.type = kConfirm.data →
      V11.dispatch st line env = V11.dispatch st line env') ∧
    (∀ (st : V11.SysState) (target : Int) (p : Poll) (rest : List Poll),
      p.abortReq = false → p.pos = st.lastFailedTarget →
      (target - st.lastFailedTarget).natAbs ≤ V11.TOLERANCE →
      V11.moveLoop target (p :: rest) = some (.Arrived, [.stop], p.pos)) ∧
    (∀ (st : V11.SysState) (target : Int) (p : Poll) (rest : List Poll),
      p.abortReq = false → p.pos = st.lastFailedTarget →
      V11.TOLERANCE < (target - st.lastFailedTarget).natAbs → p.elapsed ≤ V11.TIMEOUT_MS →
      V11.moveLoop target (p :: rest) =
        (V11.moveLoop target rest).map (fun r => (r.1, V11.driveAct target p :: r.2.1, r.2.2))) := by
  refine ⟨?_, ?_, ?_, ?_⟩
  · intro st line env cmd hp ht
    exact v11_dispatch_confirm st line env cmd hp ht
  · intro st line env env' cmd hp ht
    rw [v11_dispatch_confirm st line env cmd hp ht, v11_dispatch_confirm st line env' cmd hp ht]
  · intro st target p rest h1 hpos h2
    rw [← hpos] at h2
    simp only [V11.moveLoop, h1, Bool.false_eq_true, if_false, if_pos h2]
  · intro st target p rest h1 hpos h2 h3
    rw [← hpos] at h2
    exact v11_moveLoop_cons_nonTerm target p rest ⟨h1, h2, h3⟩

/-- C4 witness: the theorem applied to a concrete faulted state with
`lastFailedTarget = 2855` and a follow-up move to 2860 whose first poll
reads the synthetic position. -/
theorem C4_confirm_synthetic_position_witness :
    V11.dispatch ⟨100, true, 2855, true⟩ c4Line.data ⟨[], 0⟩ =
      some (⟨2855, false, 2855, true⟩, [.accepted c4Id.data, .done c4Id.data], none) ∧
    V11.moveLoop 2860 [⟨false, 2855, 0⟩] = some (.Arrived, [.stop], 2855) := by
  constructor
  · exact C4_confirm_synthetic_position.1 ⟨100, true, 2855, true⟩ c4Line.data ⟨[], 0⟩
      { id := c4Id.data, type := kConfirm.data, fromSq := [], toSq := [], piece := [] }
      (by decide) rfl
  · exact C4_confirm_synthetic_position.2.2.1 ⟨100, true, 2855, true⟩ 2860 ⟨false, 2855, 0⟩ []
      rfl rfl (by decide)

/-- C10: every terminating `moveToTarget` run records the commanded
target in the axis's `lastFailedTarget` whatever the outcome (and never
touches the fault flag); consequently a `confirm` issued after any later
move re-seeds the position to that most recent target, even when the
fault latch stems from an earlier move. -/
theorem C10_lastFailedTarget_always_written :
    (∀ (st : V11.SysState) (target : Int) (env : MoveEnv) (st1 : V11.SysState) (r : V11.RunRes),
      V11.moveToTarget st target env = some (st1, r) →
      st1.lastFailedTarget = target ∧ st1.faulted = st.faulted) ∧
    (∀ (st : MagXY.SysState) (target : Int) (env : MoveEnv) (st1 : MagXY.SysState) (ok : Bool),
      MagXY.moveToTarget st target false env = some (st1, ok) →
      st1.lastFailedTargetX = target ∧ st1.lastFailedTargetY = st.lastFailedTargetY ∧
      st1.faulted = st.faulted) ∧
    (∀ (st : MagXY.SysState) (target : Int) (env : MoveEnv) (st1 : MagXY.SysState) (ok : Bool),
      MagXY.moveToTarget st target true env = some (st1, ok) →
      st1.lastFailedTargetY = target ∧ st1.lastFailedTargetX = st.lastFailedTargetX ∧
      st1.faulted = st.faulted) ∧
    (∀ (st : V11.SysState) (target : Int) (env : MoveEnv) (st1 : V11.SysState) (r : V11.RunRes)
        (lineC : List Char) (envC : MoveEnv) (cmdC : V11.MoveCmd),
      V11.moveToTarget st target env = some (st1, r) →
      V11.parse (trimChars lineC) = some cmdC → cmdC.type = kConfirm.data →
      V11.dispatch st1 lineC envC =
        some ({ st1 with pos := target, faulted := false },
          [.accepted cmdC.id, .done cmdC.id], none)) := by
  refine ⟨?_, ?_, ?_, ?_⟩
  · intro st target env st1 r h
    have := v11_moveToTarget_fields st target env st1 r h
    exact ⟨this.1, this.2.1⟩
  · intro st target env st1 ok h
    exact magxy_moveToTarget_fields_x st target env st1 ok h
  · intro st target env st1 ok h
    exact magxy_moveToTarget_fields_y st target env st1 ok h
  · intro st target env st1 r lineC envC cmdC h hp ht
    have hflds := v11_moveToTarget_fields st target env st1 r h
    rw [v11_dispatch_confirm st1 lineC envC cmdC hp ht, hflds.1]

/-- C10 witness: the theorem applied to a concrete timed-out move (the
single poll is already past the timeout) followed by a confirm. -/
theorem C10_lastFailedTarget_always_written_witness :
    V11.moveToTarget ⟨0, true, 50, true⟩ 4000 ⟨[⟨false, 0, 20000⟩], 0⟩ =
      some (⟨0, true, 4000, true⟩, ⟨.TimedOut, false, [.stop], 0⟩) ∧
    (⟨0, true, 4000, true⟩ : V11.SysState).lastFailedTarget = 4000 ∧
    (⟨0, true, 4000, true⟩ : V11.SysState).faulted = (⟨0, true, 50, true⟩ : V11.SysState).faulted ∧
    V11.dispatch ⟨0, true, 4000, true⟩ c4Line.data ⟨[], 0⟩ =
      some (⟨4000, false, 4000, true⟩, [.accepted c4Id.data, .done c4Id.data], none) := by
  refine ⟨by decide, ?_, ?_, ?_⟩
  · exact (C10_lastFailedTarget_always_written.1 ⟨0, true, 50, true⟩ 4000
      ⟨[⟨false, 0, 20000⟩], 0⟩ ⟨0, true, 4000, true⟩ ⟨.TimedOut, false, [.stop], 0⟩ (by decide)).1
  · exact (C10_lastFailedTarget_always_written.1 ⟨0, true, 50, true⟩ 4000
      ⟨[⟨false, 0, 20000⟩], 0⟩ ⟨0, true, 4000, true⟩ ⟨.TimedOut, false, [.stop], 0⟩ (by decide)).2
  · exact C10_lastFailedTarget_always_written.2.2.2 ⟨0, true, 50, true⟩ 4000
      ⟨[⟨false, 0, 20000⟩], 0⟩ ⟨0, true, 4000, true⟩ ⟨.TimedOut, false, [.stop], 0⟩
      c4Line.data ⟨[], 0⟩
      { id := c4Id.data, type := kConfirm.data, fromSq := [], toSq := [], piece := [] }
      (by decide) (by decide) rfl

theorem magxy_parse_nil : MagXY.parse ([] : List Char) = none := rfl

theorem magxy_trim_ne_nil_of_parse {line : List Char} {cmd : MagXY.MoveCmd}
    (h : MagXY.parse (trimChars line) = some cmd) : trimChars line ≠ [] := by
  intro h0
  rw [h0, magxy_parse_nil] at h
  cases h

theorem magxy_dispatch_home (st : MagXY.SysState) (line : List Char) (envX envY : MoveEnv)
    (cmd : MagXY.MoveCmd) (hp : MagXY.parse (trimChars line) = some cmd)
    (ht : cmd.type = kHome.data) :
    MagXY.dispatch st line envX envY =
      some ({ st with posX := 0, posY := 0 }, [.accepted cmd.id, .done cmd.id]) := by
  have hne := magxy_trim_ne_nil_of_parse hp
  simp only [MagXY.dispatch, hp, ht, hne, if_false]
  simp

def c3Line : String := "CMD id=3 type=home"
def c3Id : String := "3"

/-- C3 counterexample: in the XY variant a `home` command zeroes both
encoders but leaves the fault flag set — dispatching `home` on a faulted
state returns `faulted = true`, refuting the claim that home always
leaves `faulted = false`. -/
theorem C3_home_counterexample :
    (MagXY.dispatch ⟨5, 7, true, 11, 13⟩ c3Line.data ⟨[], 0⟩ ⟨[], 0⟩).map
        (fun r => (r.1.posX, r.1.posY, r.1.faulted)) = some (0, 0, true) := by decide

/-- C3 amended: in v1.1 a `home` command runs `performAutoHome`, leaving
the encoder at 0 and the fault flag cleared; in the XY variant `home`
zeroes both encoders but leaves the fault flag unchanged. -/
theorem C3_home_recovery_amended :
    (∀ (st : V11.SysState) (line : List Char) (env : MoveEnv) (cmd : V11.MoveCmd),
      V11.parse (trimChars line) = some cmd → cmd.type = kHome.data →
      V11.dispatch st line env =
        some ({ st with pos := 0, faulted := false }, [.accepted cmd.id, .done cmd.id], none)) ∧
    (∀ (st : MagXY.SysState) (line : List Char) (envX envY : MoveEnv) (cmd : MagXY.MoveCmd),
      MagXY.parse (trimChars line) = some cmd → cmd.type = kHome.data →
      MagXY.dispatch st line envX envY =
        some ({ st with posX := 0, posY := 0 }, [.accepted cmd.id, .done cmd.id])) := by
  constructor
  · intro st line env cmd hp ht
    exact v11_dispatch_home st line env cmd hp ht
  · intro st line envX envY cmd hp ht
    exact magxy_dispatch_home st line envX envY cmd hp ht

/-- C3 witness: the amended theorem applied to concrete faulted states
of both variants. -/
theorem C3_home_recovery_amended_witness :
    V11.dispatch ⟨100, true, 694, true⟩ c3Line.data ⟨[], 0⟩ =
      some (⟨0, false, 694, true⟩, [.accepted c3Id.data, .done c3Id.data], none) ∧
    MagXY.dispatch ⟨5, 7, true, 11, 13⟩ c3Line.data ⟨[], 0⟩ ⟨[], 0⟩ =
      some (⟨0, 0, true, 11, 13⟩, [.accepted c3Id.data, .done c3Id.data]) := by
  constructor
  · exact C3_home_recovery_amended.1 ⟨100, true, 694, true⟩ c3Line.data ⟨[], 0⟩
      { id := c3Id.data, type := kHome.data, fromSq := [], toSq := [], piece := [] }
      (by decide) rfl
  · exact C3_home_recovery_amended.2 ⟨5, 7, true, 11, 13⟩ c3Line.data ⟨[], 0⟩ ⟨[], 0⟩
      { id := c3Id.data, type := kHome.data, toSq := [], piece := [] }
      (by decide) rfl

theorem part0_parse_nil : Part0.parse ([] : List Char) = none := rfl

theorem part0_trim_ne_nil_of_parse {line : List Char} {cmd : Part0.MoveCmd}
    (h : Part0.parse (trimChars line) = some cmd) : trimChars line ≠ [] := by
  intro h0
  rw [h0, part0_parse_nil] at h
  cases h

/-- Validity guarantees of the strict parser: a parsed command has all
required fields nonempty and both squares in range. -/
theorem part0_parse_valid (l : List Char) (cmd : Part0.MoveCmd)
    (h : Part0.parse l = some cmd) :
    cmd.id ≠ [] ∧ cmd.nota ≠ [] ∧ cmd.fromSq ≠ [] ∧ cmd.toSq ≠ [] ∧ cmd.piece ≠ [] ∧
    Part0.isSquare cmd.fromSq = true ∧ Part0.isSquare cmd.toSq = true := by
  simp only [Part0.parse] at h
  split at h
  · split at h
    · cases h
    · split at h
      · cases h
      · split at h
        · split at h
          · rename_i hreq htype hsq hpiece
            push_neg at hreq
            obtain ⟨hid, hnota, hfrom, hto, hpc⟩ := hreq
            rw [Option.some_inj] at h
            subst h
            exact ⟨hid, hnota, hfrom, hto, by simp, hsq.1, hsq.2⟩
          · cases h
        · cases h
  · cases h

theorem v11_parse_id_nonempty (l : List Char) (cmd : V11.MoveCmd)
    (h : V11.parse l = some cmd) : cmd.id ≠ [] := by
  simp only [V11.parse] at h
  split at h
  · split at h
    · cases h
    · rename_i hid
      rw [Option.some_inj] at h
      subst h
      exact hid
  · cases h

def c8Line : String := "CMD id=1 notation=e4 from=e2 to=e4 piece=p"

/-- C6 counterexample: the v1.1 parser (one of the parsers the claim is
about) marks the claim's line valid even though its `toSq` square `j9`
fails the file/rank range check. -/
theorem C6_square_validation_counterexample :
    (V11.parse c6Line.data).map (fun c => c.toSq) = some sqJ9.data ∧
    (V11.parse c6Line.data).isSome = true ∧
    Part0.isSquare sqJ9.data = false := by decide

/-- C6 amended: the strict `part_000` parser accepts only commands with
all required fields present and both squares in range, and it rejects
the claim's test line; the v1.1 parser checks only that `id` is present
(square range filtering happens at dispatch); in both variants a line
that fails to parse is answered `bad_format` and never dispatched. -/
theorem C6_square_validation_amended :
    (∀ (l : List Char) (cmd : Part0.MoveCmd), Part0.parse l = some cmd →
      cmd.id ≠ [] ∧ cmd.nota ≠ [] ∧ cmd.fromSq ≠ [] ∧ cmd.toSq ≠ [] ∧ cmd.piece ≠ [] ∧
      Part0.isSquare cmd.fromSq = true ∧ Part0.isSquare cmd.toSq = true) ∧
    Part0.parse c6Line.data = none ∧
    (∀ (l : List Char) (cmd : V11.MoveCmd), V11.parse l = some cmd → cmd.id ≠ []) ∧
    (∀ (st : Part0.FsmState) (line : List Char) (now : Nat),
      trimChars line ≠ [] → Part0.parse (trimChars line) = none →
      Part0.onWrite st line now = (st, [.error sUnknown.data sBadFormat.data])) ∧
    (∀ (st : V11.SysState) (line : List Char) (env : MoveEnv),
      trimChars line ≠ [] → V11.parse (trimChars line) = none →
      V11.dispatch st line env = some (st, [.error sUnknown.data sBadFormat.data], none)) := by
  refine ⟨part0_parse_valid, by decide, v11_parse_id_nonempty, ?_, ?_⟩
  · intro st line now hne hp
    simp only [Part0.onWrite, hne, if_false, hp]
  · intro st line env hne hp
    simp only [V11.dispatch, hne, if_false, hp]

/-- C6 witness: the amended theorem applied to the strict parser's
accepted line (squares in range), and to the rejected `j9` line which is
answered `bad_format` without dispatch. -/
theorem C6_square_validation_amended_witness :
    Part0.isSquare sqE2.data = true ∧ Part0.isSquare sqE4.data = true ∧
    Part0.onWrite ⟨.STAGE_IDLE, 0⟩ c6Line.data 5 =
      (⟨.STAGE_IDLE, 0⟩, [.error sUnknown.data sBadFormat.data]) := by
  refine ⟨?_, ?_, ?_⟩
  · exact (C6_square_validation_amended.1 c5LineWithNota.data
      { id := idOne.data, nota := sqE4.data, fromSq := sqE2.data, toSq := sqE4.data,
        piece := pUp.data, type := kMove.data, source := [], timestamp := [] }
      (by decide)).2.2.2.2.2.1
  · exact (C6_square_validation_amended.1 c5LineWithNota.data
      { id := idOne.data, nota := sqE4.data, fromSq := sqE2.data, toSq := sqE4.data,
        piece := pUp.data, type := kMove.data, source := [], timestamp := [] }
      (by decide)).2.2.2.2.2.2
  · exact C6_square_validation_amended.2.2.2.1 ⟨.STAGE_IDLE, 0⟩ c6Line.data 5
      (by decide) (by decide)

/-- C8: a command that parses while the staged FSM is in any non-idle
stage is answered `ack:error {id} busy`, with no `ack:accepted`, no
queueing, and the FSM state (stage and entry time) unchanged. -/
theorem C8_busy_rejection :
    ∀ (st : Part0.FsmState) (line : List Char) (now : Nat) (cmd : Part0.MoveCmd),
      Part0.parse (trimChars line) = some cmd → st.stageState ≠ .STAGE_IDLE →
      Part0.onWrite st line now = (st, [.error cmd.id sBusy.data]) := by
  intro st line now cmd hp hstage
  have hne := part0_trim_ne_nil_of_parse hp
  simp only [Part0.onWrite, hne, if_false, hp]
  rw [if_pos hstage]

/-- C8 witness: the busy rejection applied to a concrete valid command
arriving during the travel stage. -/
theorem C8_busy_rejection_witness :
    Part0.onWrite ⟨.STAGE_MOVE_TRAVEL, 100⟩ c8Line.data 42 =
      (⟨.STAGE_MOVE_TRAVEL, 100⟩, [.error idOne.data sBusy.data]) :=
  C8_busy_rejection ⟨.STAGE_MOVE_TRAVEL, 100⟩ c8Line.data 42
    { id := idOne.data, nota := sqE4.data, fromSq := sqE2.data, toSq := sqE4.data,
      piece := pUp.data, type := [], source := [], timestamp := [] }
    (by decide) (by decide)

/-- C9: the staged FSM holds exactly one of the four stages; it starts
(and idles) in `STAGE_IDLE`; a non-idle stage is left untouched by a
loop tick before its fixed threshold has elapsed since stage entry and
advances exactly at the threshold, following the cycle
Idle → Travel → PickPlace → Cooldown → Idle. -/
theorem C9_stage_fsm_cycle :
    (∀ t : Nat, Part0.enterStage .STAGE_IDLE t = ⟨.STAGE_IDLE, t⟩) ∧
    (∀ st : Part0.FsmState, st.stageState = .STAGE_IDLE ∨ st.stageState = .STAGE_MOVE_TRAVEL ∨
      st.stageState = .STAGE_MOVE_PICKPLACE ∨ st.stageState = .STAGE_COOLDOWN) ∧
    (∀ (st : Part0.FsmState) (now : Nat), st.stageState = .STAGE_IDLE →
      Part0.loopTick st now = st) ∧
    (∀ (st : Part0.FsmState) (now : Nat), st.stageState = .STAGE_MOVE_TRAVEL →
      now - st.stageStartMs < Part0.STAGE2_TRAVEL_MS → Part0.loopTick st now = st) ∧
    (∀ (st : Part0.FsmState) (now : Nat), st.stageState = .STAGE_MOVE_TRAVEL →
      Part0.STAGE2_TRAVEL_MS ≤ now - st.stageStartMs →
      Part0.loopTick st now = Part0.enterStage .STAGE_MOVE_PICKPLACE now) ∧
    (∀ (st : Part0.FsmState) (now : Nat), st.stageState = .STAGE_MOVE_PICKPLACE →
      now - st.stageStartMs < Part0.STAGE3_MOVE_MS → Part0.loopTick st now = st) ∧
    (∀ (st : Part0.FsmState) (now : Nat), st.stageState = .STAGE_MOVE_PICKPLACE →
      Part0.STAGE3_MOVE_MS ≤ now - st.stageStartMs →
      Part0.loopTick st now = Part0.enterStage .STAGE_COOLDOWN now) ∧
    (∀ (st : Part0.FsmState) (now : Nat), st.stageState = .STAGE_COOLDOWN →
      now - st.stageStartMs < Part0.COOLDOWN_MS → Part0.loopTick st now = st) ∧
    (∀ (st : Part0.FsmState) (now : Nat), st.stageState = .STAGE_COOLDOWN →
      Part0.COOLDOWN_MS ≤ now - st.stageStartMs →
      Part0.loopTick st now = Part0.enterStage .STAGE_IDLE now) := by
  refine ⟨fun t => rfl, ?_, ?_, ?_, ?_, ?_, ?_, ?_, ?_⟩
  · intro st
    cases h : st.stageState
    · exact Or.inl rfl
    · exact Or.inr (Or.inl rfl)
    · exact Or.inr (Or.inr (Or.inl rfl))
    · exact Or.inr (Or.inr (Or.inr rfl))
  · intro st now h
    simp only [Part0.loopTick, h]
  · intro st now h hlt
    simp only [Part0.loopTick, h]
    rw [if_neg (Nat.not_le.mpr hlt)]
  · intro st now h hge
    simp only [Part0.loopTick, h]
    rw [if_pos hge]
  · intro st now h hlt
    simp only [Part0.loopTick, h]
    rw [if_neg (Nat.not_le.mpr hlt)]
  · intro st now h hge
    simp only [Part0.loopTick, h]
    rw [if_pos hge]
  · intro st now h hlt
    simp only [Part0.loopTick, h]
    rw [if_neg (Nat.not_le.mpr hlt)]
  · intro st now h hge
    simp only [Part0.loopTick, h]
    rw [if_pos hge]

/-- C9 witness: the FSM theorem applied at concrete times — no advance
one millisecond before each threshold, advance exactly at it, and the
cooldown returns to idle. -/
theorem C9_stage_fsm_cycle_witness :
    Part0.loopTick ⟨.STAGE_MOVE_TRAVEL, 100⟩ 2599 = ⟨.STAGE_MOVE_TRAVEL, 100⟩ ∧
    Part0.loopTick ⟨.STAGE_MOVE_TRAVEL, 100⟩ 2600 = ⟨.STAGE_MOVE_PICKPLACE, 2600⟩ ∧
    Part0.loopTick ⟨.STAGE_MOVE_PICKPLACE, 2600⟩ 5100 = ⟨.STAGE_COOLDOWN, 5100⟩ ∧
    Part0.loopTick ⟨.STAGE_COOLDOWN, 5100⟩ 10100 = ⟨.STAGE_IDLE, 10100⟩ ∧
    Part0.loopTick ⟨.STAGE_IDLE, 10100⟩ 99999 = ⟨.STAGE_IDLE, 10100⟩ := by
  refine ⟨?_, ?_, ?_, ?_, ?_⟩
  · exact C9_stage_fsm_cycle.2.2.2.1 ⟨.STAGE_MOVE_TRAVEL, 100⟩ 2599 rfl (by decide)
  · exact C9_stage_fsm_cycle.2.2.2.2.1 ⟨.STAGE_MOVE_TRAVEL, 100⟩ 2600 rfl (by decide)
  · exact C9_stage_fsm_cycle.2.2.2.2.2.2.1 ⟨.STAGE_MOVE_PICKPLACE, 2600⟩ 5100 rfl (by decide)
  · exact C9_stage_fsm_cycle.2.2.2.2.2.2.2.2 ⟨.STAGE_COOLDOWN, 5100⟩ 10100 rfl (by decide)
  · exact C9_stage_fsm_cycle.2.2.1 ⟨.STAGE_IDLE, 10100⟩ 99999 rfl
